import Mathlib

/-!
Verification development for the Rigol oscilloscope waveform-capture code
(`src/Rigol/DS1104ZPLUS.py`, `src/Rigol/RIGOL.py`).

The Python source is shallowly embedded:
* raw transport bytes are `List Nat` (each byte `< 256`);
* numpy float arrays are `List ℚ` (exact arithmetic standing in for float64);
* the transport's `read_raw(n)` is modelled as taking up to `n` bytes from
  the front of a byte stream (a short stream yields a short read), matching
  the spec's transport boundary `read_exact(n) -> bytes`;
* Python exceptions become `Except` values;
* the filesystem is a pair of association lists from path strings to the
  two artifact kinds (`.npz` array store, `.json` sidecar).
-/

namespace Rigol

/-! ### Models of Python numeric string parsing

`int(s)` and `float(s)` as used on preamble fields and header bytes:
surrounding whitespace is stripped, an optional sign is allowed, and the
remainder must be nonempty digits (for `int`) or a decimal mantissa with an
optional exponent (for `float`).  Exotic accepted forms the instrument never
produces (underscore separators, `inf`/`nan`) are not modelled. -/

/-- Strip leading and trailing whitespace, as Python `int`/`float` do. -/
def pyStrip (cs : List Char) : List Char :=
  ((cs.dropWhile Char.isWhitespace).reverse.dropWhile Char.isWhitespace).reverse

/-- Decimal digits to a natural number (caller checks all are digits). -/
def digitsToNat (cs : List Char) : Nat :=
  cs.foldl (fun a c => a * 10 + (c.toNat - 48)) 0

/-- Consume an optional leading sign, returning the sign as `1` or `-1`. -/
def takeSign : List Char → Int × List Char
  | '+' :: rest => (1, rest)
  | '-' :: rest => (-1, rest)
  | cs => (1, cs)

/-- Nonempty all-digit run after an optional sign, as a signed integer. -/
def parseSignedDigits (cs : List Char) : Option Int :=
  let (sgn, rest) := takeSign cs
  if rest ≠ [] ∧ rest.all Char.isDigit then some (sgn * digitsToNat rest) else none

/-- Model of Python `int(s)` on a string. -/
def pyInt (s : String) : Option Int :=
  parseSignedDigits (pyStrip s.data)

/-- Split at the first `.`, keeping both sides. -/
def splitAtDot : List Char → List Char × Option (List Char)
  | [] => ([], none)
  | c :: rest =>
    if c = '.' then ([], some rest)
    else
      let (a, b) := splitAtDot rest
      (c :: a, b)

/-- Split at the first `e`/`E`, keeping both sides. -/
def splitAtExp : List Char → List Char × Option (List Char)
  | [] => ([], none)
  | c :: rest =>
    if c = 'e' ∨ c = 'E' then ([], some rest)
    else
      let (a, b) := splitAtExp rest
      (c :: a, b)

/-- `10^e` for a signed exponent, over `ℚ`. -/
def pow10 : Int → ℚ
  | .ofNat n => (10 : ℚ) ^ n
  | .negSucc n => 1 / (10 : ℚ) ^ (n + 1)

/-- Mantissa of a float literal: `digits`, `digits.digits`, `digits.`, or
`.digits`, with an optional sign. -/
def parseMantissa (cs : List Char) : Option ℚ :=
  let (sgn, rest) := takeSign cs
  let (ip, fpOpt) := splitAtDot rest
  match fpOpt with
  | none =>
    if ip ≠ [] ∧ ip.all Char.isDigit then some ((sgn : ℚ) * digitsToNat ip) else none
  | some fp =>
    if (ip ≠ [] ∨ fp ≠ []) ∧ ip.all Char.isDigit ∧ fp.all Char.isDigit then
      some ((sgn : ℚ) * ((digitsToNat ip : ℚ) + (digitsToNat fp : ℚ) / (10 : ℚ) ^ fp.length))
    else none

/-- Model of Python `float(s)` on a string, as an exact rational. -/
def pyFloat (s : String) : Option ℚ :=
  let cs := pyStrip s.data
  let (m, eo) := splitAtExp cs
  match eo with
  | none => parseMantissa m
  | some ecs =>
    match parseMantissa m, parseSignedDigits ecs with
    | some mv, some ev => some (mv * pow10 ev)
    | _, _ => none

/-! ### Preamble parsing (`capture_waveform`, lines 17–25) -/

/-- Typed preamble record built from the `:WAV:PRE?` reply. -/
structure Preamble where
  points : Int
  x_increment : ℚ
  x_origin : ℚ
  y_increment : ℚ
  y_origin : ℚ
  y_reference : Int
deriving Repr, DecidableEq

/-- The spec's name for the single failure mode of preamble parsing:
too few comma-separated fields (`IndexError` in the source) or a required
field that does not parse as its numeric type (`ValueError`). -/
inductive PreambleError where
  | malformedPreamble
deriving Repr, DecidableEq

/-- Python `s.split(',')` on char lists: cut at every comma, keeping empty
pieces (so the empty input yields one empty field). -/
def splitOnComma : List Char → List (List Char)
  | [] => [[]]
  | c :: rest =>
    if c = ',' then [] :: splitOnComma rest
    else
      match splitOnComma rest with
      | [] => [[c]]
      | r :: rs => (c :: r) :: rs

/-- Python `s.split(',')` on strings. -/
def pySplitComma (s : String) : List String :=
  (splitOnComma s.data).map String.mk

/-- `preamble.split(',')` then `int`/`float` at the fixed indices
2, 4, 5, 7, 8, 9; any missing or unparsable field aborts with an error,
never a default. -/
def parsePreamble (reply : String) : Except PreambleError Preamble :=
  let fields := pySplitComma reply
  if 10 ≤ fields.length then
    match pyInt (fields.getD 2 ""), pyFloat (fields.getD 4 ""),
          pyFloat (fields.getD 5 ""), pyFloat (fields.getD 7 ""),
          pyFloat (fields.getD 8 ""), pyInt (fields.getD 9 "") with
    | some pc, some xi, some xo, some yi, some yo, some yr =>
      .ok ⟨pc, xi, xo, yi, yo, yr⟩
    | _, _, _, _, _, _ => .error .malformedPreamble
  else .error .malformedPreamble

/-! ### Calibration (`capture_waveform`, lines 56–62) -/

/-- Arithmetic mean of a rational list (`np.mean`); `0` for the empty list,
where the source produces NaN but never uses it (the mapped array is empty). -/
def listMean (l : List ℚ) : ℚ :=
  l.sum / l.length

/-- `y_data = (byte_array - np.mean(byte_array)) * y_increment` and
`time_axis = np.arange(len(y_data)) * x_increment + x_origin`. -/
def calibrate (raw : List Nat) (P : Preamble) : List ℚ × List ℚ :=
  let rq : List ℚ := raw.map (fun b : Nat => (b : ℚ))
  let m := listMean rq
  let y_data := rq.map (fun b => (b - m) * P.y_increment)
  let time_axis := (List.range raw.length).map
    (fun i : Nat => (i : ℚ) * P.x_increment + P.x_origin)
  (time_axis, y_data)

/-! ### IEEE block reader (`capture_waveform`, lines 39–54)

The transport's `read_raw(n)` is modelled on a byte stream as taking up to
`n` bytes from the front (a stream holding fewer bytes yields a short read).
`int()` applied to a bytes slice interprets the bytes as ASCII text. -/

/-- Model of Python `int(bs)` on a bytes slice (ASCII interpretation). -/
def pyIntBytes (bs : List Nat) : Option Int :=
  parseSignedDigits (pyStrip (bs.map Char.ofNat))

/-- The `ValueError` raised on a malformed IEEE header, carrying the raw
header bytes read, as in the source's diagnostic message. -/
inductive BlockError where
  | invalidBlockHeader (raw : List Nat)
deriving Repr, DecidableEq

/-- The block-reading segment of `capture_waveform`: read a **fixed 11-byte**
header (`read_raw(11)`), require the `#` marker (byte 35), take the declared
digit count from the second byte, decode that many ASCII digits of the same
header buffer as the payload length, then issue a second `read_raw` for that
many payload bytes.  Returns the result and the remaining stream. -/
def readBlock (stream : List Nat) :
    Except BlockError (List Nat) × List Nat :=
  let header := stream.take 11
  let rest := stream.drop 11
  if header.take 1 = [35] then
    match pyIntBytes ((header.drop 1).take 1) with
    | none => (.error (.invalidBlockHeader header), rest)
    | some d =>
      match pyIntBytes ((header.drop 2).take d.toNat) with
      | none => (.error (.invalidBlockHeader header), rest)
      | some n => (.ok (rest.take n.toNat), rest.drop n.toNat)
  else (.error (.invalidBlockHeader header), rest)

/-- Modelled from the spec: the block reader the claim describes, whose
total header is `2 + digit_count` bytes — it reads the 2-byte marker/digit
prefix, then exactly `digit_count` length-field bytes, then the payload.
Used only to compare against `readBlock`, which reads a fixed 11-byte
header. -/
def readBlockHonoring (stream : List Nat) :
    Except BlockError (List Nat) × List Nat :=
  let lead := stream.take 2
  let rest2 := stream.drop 2
  if lead.take 1 = [35] then
    match pyIntBytes (lead.drop 1) with
    | none => (.error (.invalidBlockHeader lead), rest2)
    | some d =>
      let lenField := rest2.take d.toNat
      let rest3 := rest2.drop d.toNat
      match pyIntBytes lenField with
      | none => (.error (.invalidBlockHeader (lead ++ lenField)), rest3)
      | some n => (.ok (rest3.take n.toNat), rest3.drop n.toNat)
  else (.error (.invalidBlockHeader lead), rest2)

/-! ### Capture orchestration (`capture_waveform`, lines 5–77) -/

/-- Mutable oscilloscope-session state visible to `capture_waveform`:
the transport timeout and the incoming byte stream. -/
structure OscState where
  timeout : Nat
  stream : List Nat
deriving Repr, DecidableEq

/-- Failure modes of a capture: preamble parse errors are raised before the
timeout is modified; block errors are raised inside the `try` block. -/
inductive CaptureError where
  | preambleError (e : PreambleError)
  | blockError (e : BlockError)
deriving Repr, DecidableEq

/-- The value returned by `capture_waveform`. -/
structure Capture where
  time_axis : List ℚ
  y_data : List ℚ
  preamble : Preamble
deriving Repr, DecidableEq

/-- `capture_waveform`: parse the preamble reply, save `original_timeout`,
set the timeout to 30000 for the binary transfer, run the block read, and —
mirroring the `try`/`finally` — restore the saved timeout on every exit
path before returning or propagating the error. -/
def capture_waveform (preambleReply : String) (s : OscState) :
    Except CaptureError Capture × OscState :=
  match parsePreamble preambleReply with
  | .error e => (.error (.preambleError e), s)
  | .ok P =>
    let original_timeout := s.timeout
    let (r, stream') := readBlock s.stream
    let sFin : OscState := { timeout := original_timeout, stream := stream' }
    match r with
    | .error e => (.error (.blockError e), sFin)
    | .ok raw =>
      let (time_axis, y_data) := calibrate raw P
      (.ok ⟨time_axis, y_data, P⟩, sFin)

/-! ### Persistence (`save_waveform_capture` / `load_waveform_capture`) -/

/-- Contents of the `.npz` array store: the two float arrays, bit-for-bit. -/
structure NpzData where
  time_array : List ℚ
  voltage_array : List ℚ
deriving Repr, DecidableEq

/-- Contents of the `.json` sidecar. -/
structure JsonData where
  preamble : Preamble
  metadata : List (String × String)
  num_samples : Nat
  time_range_ms : ℚ × ℚ
  voltage_range_v : ℚ × ℚ
deriving Repr, DecidableEq

/-- The filesystem as seen by persistence: path-keyed stores of the two
artifact kinds (newest entry first, as `np.savez`/`json.dump` overwrite). -/
structure FS where
  npzFiles : List (String × NpzData)
  jsonFiles : List (String × JsonData)
deriving Repr, DecidableEq

/-- `pathlib.Path.with_suffix`: within the final path component, drop an
existing suffix (a `.` at an index that is neither first nor last) and
append `suf`. -/
def withSuffix (p : String) (suf : String) : String :=
  let rev := p.data.reverse
  let name := (rev.takeWhile (fun c => c ≠ '/')).reverse
  let dir := (rev.dropWhile (fun c => c ≠ '/')).reverse
  let revName := name.reverse
  let ext := revName.takeWhile (fun c => c ≠ '.')
  let stem :=
    if ext.length = revName.length then name
    else if ext = [] then name
    else
      let stemRev := revName.drop (ext.length + 1)
      if stemRev = [] then name else stemRev.reverse
  String.mk (dir ++ stem ++ suf.data)

/-- `base.with_suffix('.npz')` where `base = filepath.with_suffix('')`. -/
def npzPathOf (filepath : String) : String :=
  withSuffix (withSuffix filepath "") ".npz"

/-- `base.with_suffix('.json')` where `base = filepath.with_suffix('')`. -/
def jsonPathOf (filepath : String) : String :=
  withSuffix (withSuffix filepath "") ".json"

/-- `np.min` over a nonempty list (`0` for the empty list, which the source
guards against before calling). -/
def listMin : List ℚ → ℚ
  | [] => 0
  | x :: xs => xs.foldl min x

/-- `np.max` over a nonempty list (`0` for the empty list). -/
def listMax : List ℚ → ℚ
  | [] => 0
  | x :: xs => xs.foldl max x

/-- `save_waveform_capture`: write the arrays to the `.npz` path and the
sidecar — preamble, metadata, `num_samples = len(voltage_array)`, and
min/max ranges recomputed from the arrays with `(0, 0)` for an empty
array — to the `.json` path.  Returns the new filesystem and both paths. -/
def save_waveform_capture (filepath : String) (time_array voltage_array : List ℚ)
    (preamble : Preamble) (metadata : List (String × String)) (fs : FS) :
    FS × String × String :=
  let npz_path := npzPathOf filepath
  let json_path := jsonPathOf filepath
  let json_data : JsonData :=
    { preamble := preamble
      metadata := metadata
      num_samples := voltage_array.length
      time_range_ms :=
        if 0 < time_array.length then (listMin time_array, listMax time_array)
        else (0, 0)
      voltage_range_v :=
        if 0 < voltage_array.length then (listMin voltage_array, listMax voltage_array)
        else (0, 0) }
  ({ npzFiles := (npz_path, ⟨time_array, voltage_array⟩) :: fs.npzFiles
     jsonFiles := (json_path, json_data) :: fs.jsonFiles },
   npz_path, json_path)

/-- The `FileNotFoundError` raised by `load_waveform_capture`, carrying its
message. -/
inductive LoadError where
  | fileNotFoundError (msg : String)
deriving Repr, DecidableEq

/-- The message of the `FileNotFoundError`: it names both expected paths. -/
def notFoundMessage (npz_path json_path : String) : String :=
  "Waveform files not found. Looking for:\n  " ++ npz_path ++ "\n  " ++ json_path

/-- The dict returned by `load_waveform_capture`. -/
structure LoadedCapture where
  time_array : List ℚ
  voltage_array : List ℚ
  preamble : Preamble
  metadata : List (String × String)
  num_samples : Nat
  voltage_range_v : ℚ × ℚ
  time_range_ms : ℚ × ℚ
deriving Repr, DecidableEq

/-- `load_waveform_capture`: derive both artifact paths from the base name;
if either file is missing, fail with `FileNotFoundError` naming both paths;
otherwise return the arrays from the `.npz` store and the remaining fields
from the sidecar, with no cross-file consistency check. -/
def load_waveform_capture (filepath : String) (fs : FS) :
    Except LoadError LoadedCapture :=
  let npz_path := npzPathOf filepath
  let json_path := jsonPathOf filepath
  match fs.npzFiles.lookup npz_path, fs.jsonFiles.lookup json_path with
  | some npz, some js =>
    .ok ⟨npz.time_array, npz.voltage_array, js.preamble, js.metadata,
         js.num_samples, js.voltage_range_v, js.time_range_ms⟩
  | _, _ => .error (.fileNotFoundError (notFoundMessage npz_path json_path))

/-! ### Instrument wrapper (`RIGOL.py`) -/

/-- Python `str.strip()`. -/
def pyStripStr (s : String) : String :=
  String.mk (pyStrip s.data)

/-- `pat` starts the list `cs`. -/
def startsWithSub : List Char → List Char → Bool
  | [], _ => true
  | _ :: _, [] => false
  | p :: ps, c :: cs => p = c && startsWithSub ps cs

/-- Substring occurrence on char lists. -/
def hasSub (pat : List Char) : List Char → Bool
  | [] => pat.isEmpty
  | c :: cs => startsWithSub pat (c :: cs) || hasSub pat cs

/-- Python `needle in hay` on strings. -/
def strContains (hay needle : String) : Bool :=
  hasSub needle.data hay.data

/-- Python `str.upper()` (per-character upper-casing). -/
def pyUpper (s : String) : String :=
  String.mk (s.data.map Char.toUpper)

/-- `get_idn`: query `*IDN?` and strip the reply; a transport-level
`VisaIOError` (modelled as the `Except.error` case, carrying the message)
is caught and replaced by the literal string `"Unknown"`. -/
def get_idn (idnQuery : Except String String) : String :=
  match idnQuery with
  | .ok reply => pyStripStr reply
  | .error _ => "Unknown"

/-- `classify_instrument`: substring tests on the upper-cased IDN string. -/
def classify_instrument (idn : String) : String :=
  let idn_upper := pyUpper idn
  if strContains idn_upper "RIGOL" && strContains idn_upper "DG" then
    "generator"
  else if strContains idn_upper "RIGOL" &&
      (strContains idn_upper "DS" || strContains idn_upper "MSO") then
    "oscilloscope"
  else "unknown"

/-- The fields of a constructed `RigolInstrument` that its `__init__` sets
from the IDN query (timeout 5000, the IDN string, the classification). -/
structure RigolInstrument where
  timeout : Nat
  idn : String
  instrument_type : String
deriving Repr, DecidableEq

/-- `RigolInstrument.__init__` after the resource is opened: a total
function — no exception escapes the IDN/classification phase. -/
def mkRigolInstrument (idnQuery : Except String String) : RigolInstrument :=
  let idn := get_idn idnQuery
  { timeout := 5000, idn := idn, instrument_type := classify_instrument idn }

/-! ### Shared helper lemmas -/

/-- `getD` through `map` at an in-range index. -/
theorem getD_map_lt {α β : Type} (f : α → β) (l : List α) (i : Nat) (d : α) (d' : β)
    (h : i < l.length) : (l.map f).getD i d' = f (l.getD i d) := by
  rw [List.getD_eq_getElem _ _ (by simpa using h), List.getD_eq_getElem _ _ h,
    List.getElem_map]

/-- `getD` on `range` at an in-range index. -/
theorem getD_range_lt (n i : Nat) (h : i < n) : (List.range n).getD i 0 = i := by
  rw [List.getD_eq_getElem _ _ (by simpa using h)]
  exact List.getElem_range _ _

/-- Summing a constant shift over a list. -/
theorem sum_map_add_const (A : List ℚ) (c : ℚ) :
    (A.map (fun x => x + c)).sum = A.sum + A.length * c := by
  induction A with
  | nil => simp
  | cons a as ih =>
    simp only [List.map_cons, List.sum_cons, ih, List.length_cons]
    push_cast
    ring

/-- The arithmetic mean commutes with a constant shift on nonempty lists. -/
theorem listMean_map_add (A : List ℚ) (c : ℚ) (h : A ≠ []) :
    listMean (A.map (fun x => x + c)) = listMean A + c := by
  have hL : (A.length : ℚ) ≠ 0 := by
    have := List.length_pos.mpr h
    positivity
  unfold listMean
  rw [List.length_map, sum_map_add_const]
  field_simp
  ring

/-- Mean-centering is invariant under a constant shift of the data. -/
theorem centered_map_shift (A : List ℚ) (c y : ℚ) (h : A ≠ []) :
    (A.map (fun x => x + c)).map
        (fun x => (x - listMean (A.map (fun x => x + c))) * y) =
      A.map (fun x => (x - listMean A) * y) := by
  rw [listMean_map_add A c h, List.map_map]
  apply List.map_congr_left
  intro a _
  simp only [Function.comp]
  ring_nf

/-- Reduction of `readBlock` on a stream opening with `#9`: the fixed
11-byte header is the marker, the digit-count byte, and the next 9 stream
bytes. -/
theorem readBlock_nine (r : List Nat) :
    readBlock (35 :: 57 :: r) =
      match pyIntBytes ((r.take 9).take 9) with
      | none => (.error (.invalidBlockHeader (35 :: 57 :: r.take 9)), r.drop 9)
      | some m => (.ok ((r.drop 9).take m.toNat), (r.drop 9).drop m.toNat) := rfl

/-- A concrete preamble used by witnesses. -/
def examplePreamble : Preamble := ⟨1200, 1, 0, 2, 0, 127⟩

/-- A filesystem whose sidecar records 5 samples while the array store
holds arrays of length 2. -/
def mismatchedFS : FS :=
  ⟨[("cap.npz", ⟨[0, 1], [2, 3]⟩)],
   [("cap.json", ⟨⟨1, 1, 0, 1, 0, 127⟩, [], 5, (0, 0), (0, 0)⟩)]⟩

/-- A filesystem holding only the `.json` sidecar for base name `cap`. -/
def sidecarOnlyFS : FS :=
  ⟨[], [("cap.json", ⟨⟨1, 1, 0, 1, 0, 127⟩, [], 5, (0, 0), (0, 0)⟩)]⟩

/-! ### Claim theorems -/

/-- Claim C4: for every capture (arrays, preamble, metadata) and every
path, `load` after `save` succeeds and reproduces the arrays exactly and
the preamble and metadata by value; the stored ranges are recomputed on
save from the arrays, with `(0, 0)` for empty arrays rather than an
error. -/
theorem save_load_roundtrip (filepath : String) (t v : List ℚ) (P : Preamble)
    (md : List (String × String)) (fs : FS) :
    load_waveform_capture filepath (save_waveform_capture filepath t v P md fs).1 =
      .ok ⟨t, v, P, md, v.length,
           (if 0 < v.length then (listMin v, listMax v) else (0, 0)),
           (if 0 < t.length then (listMin t, listMax t) else (0, 0))⟩ := by
  simp [load_waveform_capture, save_waveform_capture, List.lookup]

/-- Claim C5: every exit path of the capture operation — success, a
header/parse failure, or a failed block read — leaves the transport
timeout at the exact value it held before the capture started. -/
theorem capture_waveform_restores_timeout (reply : String) (s : OscState) :
    ((capture_waveform reply s).2).timeout = s.timeout := by
  unfold capture_waveform
  cases parsePreamble reply with
  | error e => rfl
  | ok P =>
    simp only
    rcases readBlock s.stream with ⟨r, stream'⟩
    cases r with
    | error e => rfl
    | ok raw =>
      rcases calibrate raw P with ⟨ta, yd⟩
      rfl

/-- Claim C7: when either derived artifact is missing, `load` fails with a
not-found error whose message names both expected paths, and never returns
a result from the one existing file. -/
theorem load_missing_artifact (filepath : String) (fs : FS)
    (h : fs.npzFiles.lookup (npzPathOf filepath) = none ∨
         fs.jsonFiles.lookup (jsonPathOf filepath) = none) :
    load_waveform_capture filepath fs =
      .error (.fileNotFoundError
        (notFoundMessage (npzPathOf filepath) (jsonPathOf filepath))) ∧
    ∃ pre mid, notFoundMessage (npzPathOf filepath) (jsonPathOf filepath) =
      pre ++ npzPathOf filepath ++ mid ++ jsonPathOf filepath := by
  constructor
  · simp only [load_waveform_capture]
    rcases h with h | h
    · rw [h]
    · rw [h]
      rcases fs.npzFiles.lookup (npzPathOf filepath) with _ | npz <;> rfl
  · exact ⟨"Waveform files not found. Looking for:\n  ", "\n  ", rfl⟩

/-- Witness for C7: the claim's concrete scenario — the sidecar exists but
the array store does not — fails with the message naming both paths. -/
theorem load_missing_artifact_witness :
    load_waveform_capture "cap" sidecarOnlyFS =
      .error (.fileNotFoundError
        (notFoundMessage (npzPathOf "cap") (jsonPathOf "cap"))) ∧
    ∃ pre mid, notFoundMessage (npzPathOf "cap") (jsonPathOf "cap") =
      pre ++ npzPathOf "cap" ++ mid ++ jsonPathOf "cap" :=
  load_missing_artifact "cap" sidecarOnlyFS (Or.inl rfl)

/-- Counterexample to claim C8 as stated: with both files present but the
sidecar's sample count (5) disagreeing with the stored array length (2),
`load` succeeds instead of failing. -/
theorem load_mismatch_counterexample :
    ∃ r, load_waveform_capture "cap" mismatchedFS = Except.ok r ∧
      r.num_samples = 5 ∧ r.voltage_array.length = 2 ∧ r.time_array.length = 2 :=
  ⟨⟨[0, 1], [2, 3], ⟨1, 1, 0, 1, 0, 127⟩, [], 5, (0, 0), (0, 0)⟩,
    rfl, rfl, rfl, rfl⟩

/-- Claim C8 amended: `load` checks only that both files exist; it performs
no cross-file sample-count validation, returning the sidecar's recorded
count and the stored arrays verbatim even when they disagree. -/
theorem load_no_consistency_check (filepath : String) (fs : FS)
    (npz : NpzData) (js : JsonData)
    (h1 : fs.npzFiles.lookup (npzPathOf filepath) = some npz)
    (h2 : fs.jsonFiles.lookup (jsonPathOf filepath) = some js) :
    load_waveform_capture filepath fs =
      .ok ⟨npz.time_array, npz.voltage_array, js.preamble, js.metadata,
           js.num_samples, js.voltage_range_v, js.time_range_ms⟩ := by
  simp only [load_waveform_capture]
  rw [h1, h2]

/-- Witness for the amended C8: the mismatched filesystem loads
successfully with the disagreeing fields passed through. -/
theorem load_no_consistency_check_witness :
    load_waveform_capture "cap" mismatchedFS =
      .ok ⟨[0, 1], [2, 3], ⟨1, 1, 0, 1, 0, 127⟩, [], 5, (0, 0), (0, 0)⟩ :=
  load_no_consistency_check "cap" mismatchedFS ⟨[0, 1], [2, 3]⟩
    ⟨⟨1, 1, 0, 1, 0, 127⟩, [], 5, (0, 0), (0, 0)⟩ rfl rfl

/-- Claim C10: a transport-level failure of the `*IDN?` query is absorbed:
`get_idn` returns the literal `"Unknown"`, classification then yields
`"unknown"`, and constructing the instrument object still succeeds. -/
theorem idn_failure_absorbed (e : String) :
    get_idn (.error e) = "Unknown" ∧
    classify_instrument "Unknown" = "unknown" ∧
    mkRigolInstrument (.error e) = ⟨5000, "Unknown", "unknown"⟩ := by
  have hc : classify_instrument "Unknown" = "unknown" := by decide
  refine ⟨rfl, hc, ?_⟩
  show RigolInstrument.mk 5000 "Unknown" (classify_instrument "Unknown") =
    ⟨5000, "Unknown", "unknown"⟩
  rw [hc]

/-- Witness for C10: a concrete transport failure message. -/
theorem idn_failure_absorbed_witness :
    get_idn (.error "VI_ERROR_TMO") = "Unknown" ∧
    classify_instrument "Unknown" = "unknown" ∧
    mkRigolInstrument (.error "VI_ERROR_TMO") = ⟨5000, "Unknown", "unknown"⟩ :=
  idn_failure_absorbed "VI_ERROR_TMO"

/-- Claim C1: calibration returns a time axis and a voltage sequence of the
input's length (both empty for an empty input); each voltage sample is the
raw byte minus the arithmetic mean of the raw sequence, times
`y_increment`, and each time sample is its index times `x_increment` plus
`x_origin`. -/
theorem calibrate_spec (B : List Nat) (P : Preamble) :
    (calibrate B P).1.length = B.length ∧
    (calibrate B P).2.length = B.length ∧
    (B.length = 0 → (calibrate B P).1 = [] ∧ (calibrate B P).2 = []) ∧
    ∀ i, i < B.length →
      (calibrate B P).2.getD i 0 =
        ((B.getD i 0 : ℚ) -
          (B.map (fun b : Nat => (b : ℚ))).sum / (B.length : ℚ)) * P.y_increment ∧
      (calibrate B P).1.getD i 0 = (i : ℚ) * P.x_increment + P.x_origin := by
  have h1 : (calibrate B P).1 =
      (List.range B.length).map
        (fun j : Nat => (j : ℚ) * P.x_increment + P.x_origin) := rfl
  have h2 : (calibrate B P).2 =
      (B.map (fun b : Nat => (b : ℚ))).map
        (fun x => (x - listMean (B.map (fun b : Nat => (b : ℚ)))) * P.y_increment) := rfl
  refine ⟨?_, ?_, ?_, ?_⟩
  · rw [h1, List.length_map, List.length_range]
  · rw [h2, List.length_map, List.length_map]
  · intro h
    have hB : B = [] := List.length_eq_zero.mp h
    subst hB
    exact ⟨rfl, rfl⟩
  · intro i hi
    constructor
    · rw [h2, getD_map_lt _ _ i 0 0 (by simpa using hi),
        getD_map_lt _ _ i 0 0 hi]
      simp only [listMean, List.length_map]
    · rw [h1, getD_map_lt _ _ i 0 0 (by simpa using hi), getD_range_lt _ _ hi]

/-- Witness for C1: on the two-byte capture `[10, 20]` (mean 15) with
`y_increment = 2`, `x_increment = 1`, `x_origin = 0`, sample 1 calibrates
to voltage 10 at time 1. -/
theorem calibrate_spec_witness :
    (calibrate [10, 20] examplePreamble).2.getD 1 0 = 10 ∧
    (calibrate [10, 20] examplePreamble).1.getD 1 0 = 1 ∧
    (calibrate [] examplePreamble).1 = [] ∧
    (calibrate [] examplePreamble).2 = [] := by
  have h := (calibrate_spec [10, 20] examplePreamble).2.2.2 1 (by norm_num)
  have h0 := (calibrate_spec [] examplePreamble).2.2.1 rfl
  refine ⟨h.1.trans ?_, h.2.trans ?_, h0.1, h0.2⟩
  · norm_num [examplePreamble]
  · norm_num [examplePreamble]

/-- Counterexample to claim C2 as stated: on a block whose header declares
a 1-digit length field (`#15` followed by the 5 payload bytes `ABCDE`),
the fixed 11-byte header read swallows the whole payload and returns the
empty payload, while a reader that honors the declared digit count (header
size `2 + d`) returns the 5 declared bytes. -/
theorem readBlock_fixed_header_counterexample :
    (readBlock [35, 49, 53, 65, 66, 67, 68, 69]).1 = .ok [] ∧
    (readBlockHonoring [35, 49, 53, 65, 66, 67, 68, 69]).1 =
      .ok [65, 66, 67, 68, 69] ∧
    readBlock [35, 49, 53, 65, 66, 67, 68, 69] ≠
      readBlockHonoring [35, 49, 53, 65, 66, 67, 68, 69] := by
  refine ⟨rfl, rfl, fun hEq => ?_⟩
  have h1 : (readBlock [35, 49, 53, 65, 66, 67, 68, 69]).1 =
      (readBlockHonoring [35, 49, 53, 65, 66, 67, 68, 69]).1 := by rw [hEq]
  rw [show (readBlock [35, 49, 53, 65, 66, 67, 68, 69]).1 =
      Except.ok [] from rfl,
    show (readBlockHonoring [35, 49, 53, 65, 66, 67, 68, 69]).1 =
      Except.ok [65, 66, 67, 68, 69] from rfl] at h1
  simp at h1

/-- Claim C2 amended: the block reader always reads a fixed 11-byte header
and decodes the payload length from the declared number of ASCII digit
bytes of that header; it agrees with the reader that treats the header as
`2 + digit_count` bytes exactly when the declared digit count is 9 (header
`#9…`), the only case in which `2 + digit_count = 11`. -/
theorem readBlock_agrees_when_nine_digits (r : List Nat) :
    readBlock (35 :: 57 :: r) = readBlockHonoring (35 :: 57 :: r) := by
  have key : (r.take 9).take 9 = r.take 9 := by simp [List.take_take]
  calc readBlock (35 :: 57 :: r)
      = (match pyIntBytes ((r.take 9).take 9) with
        | none => (.error (.invalidBlockHeader (35 :: 57 :: r.take 9)), r.drop 9)
        | some m => (.ok ((r.drop 9).take m.toNat), (r.drop 9).drop m.toNat)) :=
      readBlock_nine r
    _ = (match pyIntBytes (r.take 9) with
        | none => (.error (.invalidBlockHeader (35 :: 57 :: r.take 9)), r.drop 9)
        | some m => (.ok ((r.drop 9).take m.toNat), (r.drop 9).drop m.toNat)) := by
      rw [key]
    _ = readBlockHonoring (35 :: 57 :: r) := rfl

/-- Counterexample to claim C3 as stated: a well-formed header declaring 5
payload bytes followed by a transport that delivers only 2 — the block
read returns the 2-byte sequence as a successful result instead of failing
with a protocol error. -/
theorem readBlock_short_read_counterexample :
    (readBlock [35, 57, 48, 48, 48, 48, 48, 48, 48, 48, 53, 65, 66]).1 =
      .ok [65, 66] ∧
    pyIntBytes [48, 48, 48, 48, 48, 48, 48, 48, 53] = some 5 ∧
    ([65, 66] : List Nat).length < 5 :=
  ⟨rfl, rfl, by decide⟩

/-- Claim C3 amended: after a well-formed 11-byte header declaring payload
length `n`, the reader issues a second, distinct read for `n` bytes and
returns exactly the first `n` payload bytes unmodified when the transport
supplies them; when the transport delivers fewer than `n` bytes, it
returns the shorter sequence as a successful result, with no length
validation and no protocol error. -/
theorem readBlock_payload_read (digits rest : List Nat) (n : Nat)
    (hlen : digits.length = 9)
    (hdig : pyIntBytes digits = some (n : Int)) :
    readBlock (35 :: 57 :: (digits ++ rest)) = (.ok (rest.take n), rest.drop n) ∧
    (n ≤ rest.length → (rest.take n).length = n) ∧
    (rest.length < n →
      (readBlock (35 :: 57 :: (digits ++ rest))).1 = .ok rest ∧
      rest.length < n) := by
  have e0 : (digits ++ rest).take 9 = digits := by
    rw [← hlen]
    exact List.take_left digits rest
  have e1 : ((digits ++ rest).take 9).take 9 = digits := by
    rw [e0, ← hlen, List.take_length]
  have e2 : (digits ++ rest).drop 9 = rest := by
    rw [← hlen]
    exact List.drop_left digits rest
  have main : readBlock (35 :: 57 :: (digits ++ rest)) =
      (.ok (rest.take n), rest.drop n) := by
    rw [readBlock_nine, e1, hdig, e2]
    simp
  refine ⟨main, ?_, ?_⟩
  · intro h
    simp [List.length_take, Nat.min_eq_left h]
  · intro h
    refine ⟨?_, h⟩
    rw [main]
    simp [List.take_of_length_le (le_of_lt h)]

/-- Witness for the amended C3: a header declaring 5 bytes with only 2
delivered returns the 2 delivered bytes successfully. -/
theorem readBlock_payload_read_witness :
    readBlock (35 :: 57 :: ([48, 48, 48, 48, 48, 48, 48, 48, 53] ++ [65, 66])) =
      (.ok [65, 66], []) ∧
    (readBlock (35 :: 57 :: ([48, 48, 48, 48, 48, 48, 48, 48, 53] ++ [65, 66]))).1 =
      .ok [65, 66] ∧
    (([65, 66, 67, 68, 69, 70] : List Nat).take 5).length = 5 := by
  have h := readBlock_payload_read [48, 48, 48, 48, 48, 48, 48, 48, 53]
    [65, 66] 5 (by decide) (by decide)
  have h6 := readBlock_payload_read [48, 48, 48, 48, 48, 48, 48, 48, 53]
    [65, 66, 67, 68, 69, 70] 5 (by decide) (by decide)
  refine ⟨?_, (h.2.2 (by decide)).1, h6.2.1 (by decide)⟩
  rw [h.1]
  rfl

/-- Claim C6: when the comma-split reply has at least 10 fields and the
fields at indices 2, 4, 5, 7, 8, 9 parse as their expected numeric types,
parsing returns exactly those values; otherwise it fails with the
malformed-preamble error and never substitutes a default. -/
theorem parsePreamble_fields (reply : String) :
    (∀ pc xi xo yi yo yr,
      10 ≤ (pySplitComma reply).length →
      pyInt ((pySplitComma reply).getD 2 "") = some pc →
      pyFloat ((pySplitComma reply).getD 4 "") = some xi →
      pyFloat ((pySplitComma reply).getD 5 "") = some xo →
      pyFloat ((pySplitComma reply).getD 7 "") = some yi →
      pyFloat ((pySplitComma reply).getD 8 "") = some yo →
      pyInt ((pySplitComma reply).getD 9 "") = some yr →
      parsePreamble reply = .ok ⟨pc, xi, xo, yi, yo, yr⟩) ∧
    ((¬ 10 ≤ (pySplitComma reply).length ∨
      pyInt ((pySplitComma reply).getD 2 "") = none ∨
      pyFloat ((pySplitComma reply).getD 4 "") = none ∨
      pyFloat ((pySplitComma reply).getD 5 "") = none ∨
      pyFloat ((pySplitComma reply).getD 7 "") = none ∨
      pyFloat ((pySplitComma reply).getD 8 "") = none ∨
      pyInt ((pySplitComma reply).getD 9 "") = none) →
      parsePreamble reply = .error .malformedPreamble) := by
  constructor
  · intro pc xi xo yi yo yr hlen h2 h4 h5 h7 h8 h9
    simp only [parsePreamble]
    rw [if_pos hlen, h2, h4, h5, h7, h8, h9]
  · intro h
    simp only [parsePreamble]
    by_cases hlen : 10 ≤ (pySplitComma reply).length
    · rw [if_pos hlen]
      rcases e2 : pyInt ((pySplitComma reply).getD 2 "") with _ | pc <;>
        rcases e4 : pyFloat ((pySplitComma reply).getD 4 "") with _ | xi <;>
        rcases e5 : pyFloat ((pySplitComma reply).getD 5 "") with _ | xo <;>
        rcases e7 : pyFloat ((pySplitComma reply).getD 7 "") with _ | yi <;>
        rcases e8 : pyFloat ((pySplitComma reply).getD 8 "") with _ | yo <;>
        rcases e9 : pyInt ((pySplitComma reply).getD 9 "") with _ | yr <;>
        simp_all
    · rw [if_neg hlen]

/-- Witness for C6: a 10-field reply parses to exactly the numeric values
at the fixed indices. -/
theorem parsePreamble_fields_witness :
    parsePreamble "FMT,TYP,1200,CNT,0.5,-0.25,DLY,2.0,1.5,127" =
      .ok ⟨1200, 1/2, -1/4, 2, 3/2, 127⟩ := by
  have hxi : pyFloat "0.5" = some (1/2 : ℚ) := by
    rw [show pyFloat "0.5" = some (((1 : Int) : ℚ) *
      (((0 : Nat) : ℚ) + ((5 : Nat) : ℚ) / (10 : ℚ) ^ (1 : Nat))) from rfl]
    norm_num
  have hxo : pyFloat "-0.25" = some (-1/4 : ℚ) := by
    rw [show pyFloat "-0.25" = some (((-1 : Int) : ℚ) *
      (((0 : Nat) : ℚ) + ((25 : Nat) : ℚ) / (10 : ℚ) ^ (2 : Nat))) from rfl]
    norm_num
  have hyi : pyFloat "2.0" = some (2 : ℚ) := by
    rw [show pyFloat "2.0" = some (((1 : Int) : ℚ) *
      (((2 : Nat) : ℚ) + ((0 : Nat) : ℚ) / (10 : ℚ) ^ (1 : Nat))) from rfl]
    norm_num
  have hyo : pyFloat "1.5" = some (3/2 : ℚ) := by
    rw [show pyFloat "1.5" = some (((1 : Int) : ℚ) *
      (((1 : Nat) : ℚ) + ((5 : Nat) : ℚ) / (10 : ℚ) ^ (1 : Nat))) from rfl]
    norm_num
  exact (parsePreamble_fields "FMT,TYP,1200,CNT,0.5,-0.25,DLY,2.0,1.5,127").1
    1200 (1/2) (-1/4) 2 (3/2) 127
    (by decide) rfl hxi hxo hyi hyo rfl

/-- Claim C9: shifting every raw byte by a constant that keeps the data in
8-bit range leaves the calibrated voltage sequence unchanged, because the
mean shifts by the same constant. -/
theorem calibrate_shift_invariant (B : List Nat) (k : Nat) (P : Preamble)
    (hrange : ∀ b ∈ B, b + k ≤ 255) :
    (calibrate (B.map (fun b => b + k)) P).2 = (calibrate B P).2 := by
  by_cases hB : B = []
  · subst hB
    rfl
  · have hcast : (B.map (fun b => b + k)).map (fun b : Nat => (b : ℚ)) =
        (B.map (fun b : Nat => (b : ℚ))).map (fun x => x + (k : ℚ)) := by
      rw [List.map_map, List.map_map]
      apply List.map_congr_left
      intro b _
      simp only [Function.comp]
      push_cast
      ring
    have hA : B.map (fun b : Nat => (b : ℚ)) ≠ [] := by
      simpa using hB
    have lhs_eq : (calibrate (B.map (fun b => b + k)) P).2 =
        ((B.map (fun b => b + k)).map (fun b : Nat => (b : ℚ))).map
          (fun x => (x - listMean ((B.map (fun b => b + k)).map
            (fun b : Nat => (b : ℚ)))) * P.y_increment) := rfl
    have rhs_eq : (calibrate B P).2 =
        (B.map (fun b : Nat => (b : ℚ))).map
          (fun x => (x - listMean (B.map (fun b : Nat => (b : ℚ)))) *
            P.y_increment) := rfl
    rw [lhs_eq, rhs_eq, hcast]
    exact centered_map_shift _ _ _ hA

/-- Witness for C9: shifting `[1, 2]` by 3 (all within range) yields the
same voltage sequence. -/
theorem calibrate_shift_invariant_witness :
    (calibrate ([1, 2].map (fun b => b + 3)) examplePreamble).2 =
      (calibrate [1, 2] examplePreamble).2 :=
  calibrate_shift_invariant [1, 2] 3 examplePreamble (by decide)

end Rigol
